import Mathlib

/-!
Verification of the hetzner_dyndns dynamic-DNS updater (Go), shallowly
embedded in Lean 4. The authoritative source file is the multi-zone
variant of the program (the file defining a `Zones` map on the config);
pure decision logic is translated directly, while the network transport
and the standard-library JSON unmarshaller are supplied as explicit
environment parameters, so every provider interaction is visible as a
value of an `Act` trace.
-/

set_option linter.unusedVariables false

/-! ## Go net.ParseIP, To4 and Equal

The program runs on a modern Go toolchain (it imports the `slices`
package, available since Go 1.21), so `net.ParseIP` follows the
`net/netip` parser: IPv4 dotted-quad fields of one to three digits with
no leading zeros and values at most 255; IPv6 with hex fields, a single
`::` compression, and an optional embedded IPv4 tail. `net.ParseIP`
always returns the 16-byte form (IPv4 addresses come back IPv4-mapped).
Addresses are modelled as lists of byte values (`List Nat`, each < 256).
-/

/-- Decimal digit test matching the Go byte-range comparison (code
points 48 to 57 are the digits 0 to 9). -/
def isDecDigit (c : Char) : Bool :=
  48 ≤ c.toNat && c.toNat ≤ 57

/-- Value of a hexadecimal digit character, if it is one: the Go loop
accepts 0-9 (code points 48-57), a-f (97-102) and A-F (65-70). -/
def hexVal (c : Char) : Option Nat :=
  let u := c.toNat
  if 48 ≤ u && u ≤ 57 then some (u - 48)
  else if 97 ≤ u && u ≤ 102 then some (u - 97 + 10)
  else if 65 ≤ u && u ≤ 70 then some (u - 65 + 10)
  else none

/-- The netip parseIPv4Fields loop: scans decimal fields separated by
dots, rejecting empty fields, leading zeros, values above 255 and more
than four fields. `val` and `digLen` track the current field, `fields`
the completed ones. Returns the four byte values on success. -/
def parseV4Fields : List Char → Nat → Nat → List Nat → Option (List Nat)
  | [], val, digLen, fields =>
    if fields.length < 3 then none
    else some (fields ++ [val])
  | c :: rest, val, digLen, fields =>
    if isDecDigit c then
      if digLen == 1 && val == 0 then none
      else
        let val' := val * 10 + (c.toNat - 48)
        if val' > 255 then none
        else parseV4Fields rest val' (digLen + 1) fields
    else if c == '.' then
      if digLen == 0 || rest.isEmpty then none
      else if fields.length == 3 then none
      else parseV4Fields rest 0 0 (fields ++ [val])
    else none

/-- Go netip parseIPv4: four dotted-decimal bytes. -/
def parseIPv4 (s : List Char) : Option (List Nat) :=
  parseV4Fields s 0 0 []

/-- Scan one IPv6 hexadecimal field: accumulates digits into `acc`
(counting them in `off`) until a non-hex character; fails (outer none)
when the accumulated value reaches 2^16, exactly as the Go loop does. -/
def scanHexField : List Char → Nat → Nat → Option (Nat × Nat × List Char)
  | [], acc, off => some (acc, off, [])
  | c :: rest, acc, off =>
    match hexVal c with
    | none => some (acc, off, c :: rest)
    | some d =>
      let acc' := acc * 16 + d
      if acc' > 65535 then none
      else scanHexField rest acc' (off + 1)

/-- Main loop of Go netip parseIPv6. `bytes` holds the bytes filled so
far (the loop index i is its length), `ell` the byte position of a `::`
if one was seen. Returns the bytes, the ellipsis position and the
unconsumed remainder; `none` is a parse error. The loop runs at most
eight times since every iteration adds at least two bytes, so a fuel of
16 is never exhausted before the length check exits. -/
def v6Loop : Nat → List Nat → Option Nat → List Char → Option (List Nat × Option Nat × List Char)
  | 0, bytes, ell, s => some (bytes, ell, s)
  | fuel + 1, bytes, ell, s =>
    if bytes.length ≥ 16 then some (bytes, ell, s)
    else
      match scanHexField s 0 0 with
      | none => none
      | some (acc, off, rest) =>
        if off == 0 then none
        else if rest.head? == some '.' then
          if ell.isNone && bytes.length != 12 then none
          else if bytes.length + 4 > 16 then none
          else match parseIPv4 s with
            | none => none
            | some b4 => some (bytes ++ b4, ell, [])
        else
          let bytes' := bytes ++ [acc / 256, acc % 256]
          match rest with
          | [] => some (bytes', ell, [])
          | ':' :: [] => none
          | ':' :: ':' :: rest2 =>
            if ell.isSome then none
            else if rest2.isEmpty then some (bytes', some bytes'.length, [])
            else v6Loop fuel bytes' (some bytes'.length) rest2
          | ':' :: rest2 => v6Loop fuel bytes' ell rest2
          | _ => none

/-- Go netip parseIPv6: optional leading `::`, the field loop, then the
ellipsis expansion. A lone `::` is the all-zero address. Zone suffixes
are rejected (net.ParseIP refuses any address carrying a zone, and a
`%` character aborts the field scan here, with the same net effect). -/
def parseIPv6 (s : List Char) : Option (List Nat) :=
  let hasLeadingEll := s.head? == some ':' && s.tail.head? == some ':'
  let s' := if hasLeadingEll then s.drop 2 else s
  let ell0 : Option Nat := if hasLeadingEll then some 0 else none
  if hasLeadingEll && s'.isEmpty then some (List.replicate 16 0)
  else
    match v6Loop 16 [] ell0 s' with
    | none => none
    | some (bytes, ellipsis, rest) =>
      if !rest.isEmpty then none
      else if bytes.length < 16 then
        match ellipsis with
        | none => none
        | some e => some (bytes.take e ++ List.replicate (16 - bytes.length) 0 ++ bytes.drop e)
      else if ellipsis.isSome then none
      else some bytes

/-- The 12-byte prefix marking an IPv4-mapped IPv6 address. -/
def v4InV6Prefix : List Nat := [0, 0, 0, 0, 0, 0, 0, 0, 0, 0, 255, 255]

/-- Go netip ParseAddr dispatch: the first of a dot, colon or percent
character decides the family; a percent first, or no marker at all, is
a parse failure. Composed with net.ParseIP, which always returns the
16-byte form (As16), so a parsed IPv4 address is returned IPv4-mapped. -/
def findFamilyMarker : List Char → Option Char
  | [] => none
  | c :: rest =>
    if c == '.' || c == ':' || c == '%' then some c
    else findFamilyMarker rest

/-- Go net.ParseIP on a modern toolchain: netip.ParseAddr followed by
As16, returning none for unparsable strings and zoned addresses. -/
def parseIP (s : String) : Option (List Nat) :=
  match findFamilyMarker s.toList with
  | some '.' => (parseIPv4 s.toList).map (fun b4 => v4InV6Prefix ++ b4)
  | some ':' => parseIPv6 s.toList
  | _ => none

/-- Go net.IP.To4: the 4-byte form of an address, when it has one. -/
def ipTo4 (ip : List Nat) : Option (List Nat) :=
  if ip.length == 4 then some ip
  else if ip.length == 16 && decide (ip.take 12 = v4InV6Prefix) then some (ip.drop 12)
  else none

/-- Go net.IP.Equal on two byte slices: equal lengths compare bytewise,
and a 4-byte address equals the 16-byte IPv4-mapped form of the same
bytes; every other length combination is unequal. -/
def goIPEqualFull (a b : List Nat) : Bool :=
  if a.length = b.length then decide (a = b)
  else if a.length = 4 && b.length = 16 then
    decide (b.take 12 = v4InV6Prefix) && decide (a = b.drop 12)
  else if a.length = 16 && b.length = 4 then
    decide (a.take 12 = v4InV6Prefix) && decide (b = a.drop 12)
  else false

/-- The comparison parsedIp.Equal(net.ParseIP(currentAddress)) from
processRecord: a nil result of ParseIP is the empty slice, which is
never equal to a parsed (16-byte) address. -/
def goIPEqual (a : List Nat) (b : Option (List Nat)) : Bool :=
  goIPEqualFull a (b.getD [])

/-! ## Configuration and payload data model

Direct translations of the Go structs of the multi-zone variant. The
Zones map is represented as an association list; Go map iteration order
is unspecified, and no claim below depends on the order, only on
per-target occurrence counts. -/

/-- Go struct RecordConfig: one per address family. -/
structure RecordConfig where
  enabled : Bool
  source : String
deriving DecidableEq, Repr

/-- Go struct DynDnsConfig of the multi-zone variant. -/
structure DynDnsConfig where
  hetznerApiKey : String
  recordTTL : Int
  zones : List (String × List String)
  a : RecordConfig
  aaaa : RecordConfig
deriving DecidableEq, Repr

/-- Go struct rrSetRecord. -/
structure RrSetRecord where
  value : String
deriving DecidableEq, Repr

/-- Go struct rrSetPayload; Name, Type and TTL carry the omitempty JSON
tag, Records does not. -/
structure RrSetPayload where
  name : String
  type : String
  ttl : Int
  records : List RrSetRecord
deriving DecidableEq, Repr

/-- Go struct rrSetResponse, the unmarshal target of the read body. -/
structure RrSetResponse where
  rrset : RrSetPayload
deriving DecidableEq, Repr

/-- The shape of a marshalled JSON document, as produced by the Go
encoding/json package on the payload structs (object field order
follows struct field order). -/
inductive GoJson where
  | text : String → GoJson
  | int : Int → GoJson
  | list : List GoJson → GoJson
  | fields : List (String × GoJson) → GoJson
deriving Repr

/-- Marshalling of rrSetRecord. -/
def encodeRrSetRecord (r : RrSetRecord) : GoJson :=
  .fields [("value", .text r.value)]

/-- Marshalling of rrSetPayload with the omitempty semantics of
encoding/json: a string field is omitted when empty, an int field when
zero; the records field is always serialized. -/
def encodeRrSetPayload (p : RrSetPayload) : GoJson :=
  .fields ((if p.name = "" then [] else [("name", .text p.name)])
     ++ (if p.type = "" then [] else [("type", .text p.type)])
     ++ (if p.ttl = 0 then [] else [("ttl", .int p.ttl)])
     ++ [("records", .list (p.records.map encodeRrSetRecord))])

/-! ## HTTP client model

The transport is an environment: each call receives the HttpResponse
the server produced. doAuthenticated returns both the request it built
(headers included, making the flow of the credential explicit) and the
outcome the Go function returns. -/

/-- The observable parts of an HTTP response: status code and body. -/
structure HttpResponse where
  status : Nat
  body : String
deriving DecidableEq, Repr

/-- The request doAuthenticated builds before dispatching. -/
structure HttpRequest where
  method : String
  url : String
  contentType : String
  authorization : String
  body : Option GoJson
deriving Repr

/-- Result of doAuthenticated: the returned status code and (when
readBody was set) body, or the error value. -/
inductive DoResult where
  | ok : Nat → Option String → DoResult
  | err : String → DoResult
deriving DecidableEq, Repr

/-- The diagnostic built by doAuthenticated on an unexpected status:
fmt.Errorf("unexpected api response %d %s", statusCode, body). -/
def apiErrorMsg (status : Nat) (body : String) : String :=
  "unexpected api response " ++ toString status ++ " " ++ body

/-- Go doAuthenticated: builds the request with the Content-Type and
Authorization headers and the marshalled payload, then checks the
response status against the expected list; an unexpected status yields
the error carrying status and body, an expected one returns the status
and, if requested, the body. -/
def doAuthenticated (method apiKey url : String) (payload : Option RrSetPayload)
    (expectedStatusCodes : List Nat) (readBody : Bool) (response : HttpResponse) :
    HttpRequest × DoResult :=
  let req : HttpRequest :=
    { method := method
      url := url
      contentType := "application/json"
      authorization := "Bearer " ++ apiKey
      body := payload.map encodeRrSetPayload }
  if expectedStatusCodes.contains response.status then
    if readBody then (req, .ok response.status (some response.body))
    else (req, .ok response.status none)
  else
    (req, .err (apiErrorMsg response.status response.body))

/-- The record read endpoint of getCurrentRecord. -/
def getRecordEndpoint (zoneName recordName recordType : String) : String :=
  "https://api.hetzner.cloud/v1/zones/" ++ zoneName ++ "/rrsets/" ++ recordName ++ "/" ++ recordType

/-- Go getCurrentRecord: GET with expected statuses 200 and 404; a 404
returns the empty string (the absent marker), otherwise the body is
unmarshalled (the encoding/json unmarshaller is the `unmarshal`
environment parameter) and the value of the first record is returned,
or the empty string when the record list is empty. Errors are the
log.Fatal paths. -/
def getCurrentRecord (unmarshal : String → Option RrSetResponse)
    (apiKey zoneName recordName recordType : String) (response : HttpResponse) :
    Except String String :=
  match (doAuthenticated "GET" apiKey (getRecordEndpoint zoneName recordName recordType)
          none [200, 404] true response).2 with
  | .err e => .error ("could not check record existence " ++ e)
  | .ok statusCode body =>
    if statusCode == 404 then .ok ""
    else
      match unmarshal (body.getD "") with
      | none => .error ("could not parse api response " ++ body.getD "")
      | some parsedResponse =>
        match parsedResponse.rrset.records with
        | record :: _ => .ok record.value
        | [] => .ok ""

/-- The payload literal built in createRecord. -/
def createPayload (config : DynDnsConfig) (recordName recordType publicIp : String) : RrSetPayload :=
  { name := recordName
    type := recordType
    ttl := config.recordTTL
    records := [{ value := publicIp }] }

/-- The payload literal built in updateRecord: only Records is set, the
other fields keep their Go zero values. -/
def updatePayload (publicIp : String) : RrSetPayload :=
  { name := ""
    type := ""
    ttl := 0
    records := [{ value := publicIp }] }

/-- Go createRecord: POST of the full payload to the record-set
creation endpoint of the zone, expecting status 201. Returns the built
request and the fatal error message, if any. -/
def createRecord (config : DynDnsConfig) (zoneName recordName recordType publicIp : String)
    (response : HttpResponse) : HttpRequest × Option String :=
  let endpoint := "https://api.hetzner.cloud/v1/zones/" ++ zoneName ++ "/rrsets"
  match doAuthenticated "POST" config.hetznerApiKey endpoint
          (some (createPayload config recordName recordType publicIp)) [201] false response with
  | (req, .err e) =>
    (req, some ("could not create record " ++ recordName ++ "." ++ zoneName ++ " of type "
      ++ recordType ++ " with " ++ publicIp ++ " " ++ e))
  | (req, .ok _ _) => (req, none)

/-- Go updateRecord: POST of the records-only payload to the
set_records action sub-resource, expecting status 201. -/
def updateRecord (config : DynDnsConfig) (zoneName recordName recordType publicIp : String)
    (response : HttpResponse) : HttpRequest × Option String :=
  let endpoint := "https://api.hetzner.cloud/v1/zones/" ++ zoneName ++ "/rrsets/"
    ++ recordName ++ "/" ++ recordType ++ "/actions/set_records"
  match doAuthenticated "POST" config.hetznerApiKey endpoint
          (some (updatePayload publicIp)) [201] false response with
  | (req, .err e) =>
    (req, some ("could not update record " ++ recordName ++ "." ++ zoneName ++ " of type "
      ++ recordType ++ " with " ++ publicIp ++ " " ++ e))
  | (req, .ok _ _) => (req, none)

/-! ## IP resolver -/

/-- Outcome of the unauthenticated GET of getPublicIP: the connection
may fail, reading the body may fail, or a response arrives with a
status code and a body. -/
inductive FetchResult where
  | connError : String → FetchResult
  | readError : String → FetchResult
  | body : Nat → String → FetchResult
deriving DecidableEq, Repr

/-- Go getPublicIP: one GET against the configured source; the first
component lists the URLs fetched (always exactly the source), the
second is the returned string or the fatal error. The response status
code is never consulted. -/
def getPublicIP (source : String) (fetch : FetchResult) : List String × Except String String :=
  ([source],
   match fetch with
   | .connError msg => .error ("could not fetch ip from " ++ source ++ " " ++ msg)
   | .readError msg => .error ("could not read response " ++ msg)
   | .body _ content => .ok content)

/-! ## Reconciler -/

/-- One observable step of a run: the resolver GET, a provider record
read, a create, an update, or the skip log line for an up-to-date
record. -/
inductive Act where
  | resolve : String → Act
  | read : String → String → String → Act
  | create : String → String → String → RrSetPayload → Act
  | update : String → String → String → RrSetPayload → Act
  | skip : String → String → String → Act
deriving DecidableEq, Repr

/-- The provider-side environment of one processRecord run: the
unmarshaller and, per (zone, recordName) target, the transport
responses to the read, create and update calls. -/
structure ProviderEnv where
  unmarshal : String → Option RrSetResponse
  readResp : String → String → HttpResponse
  createResp : String → String → HttpResponse
  updateResp : String → String → HttpResponse

/-- The fatal message of the resolver validation check in
processRecord. -/
def invalidIpMsg (ipString : String) : String :=
  "service returned invalid ip address " ++ ipString

/-- The body of the inner loop of processRecord for one (zone,
recordName) target: read the current record, then create when absent,
skip when the parsed addresses are equal, update otherwise. Returns
the actions performed and the fatal error, if any. -/
def processTarget (config : DynDnsConfig) (recordType : String) (parsedIp : List Nat)
    (ipString : String) (env : ProviderEnv) (zoneName recordName : String) :
    List Act × Option String :=
  match getCurrentRecord env.unmarshal config.hetznerApiKey zoneName recordName recordType
          (env.readResp zoneName recordName) with
  | .error e => ([.read zoneName recordName recordType], some e)
  | .ok currentAddress =>
    if currentAddress == "" then
      ([.read zoneName recordName recordType,
        .create zoneName recordName recordType (createPayload config recordName recordType ipString)],
       (createRecord config zoneName recordName recordType ipString
          (env.createResp zoneName recordName)).2)
    else if goIPEqual parsedIp (parseIP currentAddress) then
      ([.read zoneName recordName recordType, .skip zoneName recordName recordType], none)
    else
      ([.read zoneName recordName recordType,
        .update zoneName recordName recordType (updatePayload ipString)],
       (updateRecord config zoneName recordName recordType ipString
          (env.updateResp zoneName recordName)).2)

/-- The (zone, recordName) pairs visited by the two nested loops of
processRecord, in iteration order. -/
def flatTargets : List (String × List String) → List (String × String)
  | [] => []
  | (zoneName, recordNames) :: rest =>
    recordNames.map (fun n => (zoneName, n)) ++ flatTargets rest

/-- Sequential execution over the targets with the fail-fast semantics
of log.Fatal: the first failing target ends the run, later targets are
not visited. -/
def runTargets (f : String → String → List Act × Option String) :
    List (String × String) → List Act × Option String
  | [] => ([], none)
  | (zoneName, recordName) :: rest =>
    match f zoneName recordName with
    | (acts, some e) => (acts, some e)
    | (acts, none) =>
      let r := runTargets f rest
      (acts ++ r.1, r.2)

/-- Go processRecord of the multi-zone variant: nothing happens for a
disabled record type; otherwise the public IP is fetched, parsed and
checked against the record type family (A must have an IPv4 form, AAAA
must not), and every configured target is reconciled. -/
def processRecord (config : DynDnsConfig) (recordType : String) (recordConfig : RecordConfig)
    (fetch : FetchResult) (env : ProviderEnv) : List Act × Option String :=
  if !recordConfig.enabled then ([], none)
  else
    match (getPublicIP recordConfig.source fetch).2 with
    | .error e => ([.resolve recordConfig.source], some e)
    | .ok ipString =>
      match parseIP ipString with
      | none => ([.resolve recordConfig.source], some (invalidIpMsg ipString))
      | some parsedIp =>
        if (recordType == "A") == (ipTo4 parsedIp).isNone then
          ([.resolve recordConfig.source], some (invalidIpMsg ipString))
        else
          let r := runTargets (processTarget config recordType parsedIp ipString env)
                     (flatTargets config.zones)
          (.resolve recordConfig.source :: r.1, r.2)

/-! ## Trace selectors

Per-target views of a run trace, used to count the provider calls a
run performs for one (zone, recordName) pair. -/

/-- The target a trace step belongs to; the resolver GET belongs to no
target. -/
def keyOf : Act → Option (String × String)
  | .resolve _ => none
  | .read z n _ => some (z, n)
  | .create z n _ _ => some (z, n)
  | .update z n _ _ => some (z, n)
  | .skip z n _ => some (z, n)

/-- Selector of create calls for one target, yielding their payloads. -/
def isCreateFor (z n : String) : Act → Option RrSetPayload
  | .create z' n' _ p => if z' = z ∧ n' = n then some p else none
  | _ => none

/-- Selector of update calls for one target, yielding their payloads. -/
def isUpdateFor (z n : String) : Act → Option RrSetPayload
  | .update z' n' _ p => if z' = z ∧ n' = n then some p else none
  | _ => none

/-- Selector of every step belonging to one target. -/
def isActFor (z n : String) (a : Act) : Option Act :=
  if keyOf a = some (z, n) then some a else none

/-- The payloads of the create calls a trace performs for one target. -/
def createsFor (acts : List Act) (z n : String) : List RrSetPayload :=
  acts.filterMap (isCreateFor z n)

/-- The payloads of the update calls a trace performs for one target. -/
def updatesFor (acts : List Act) (z n : String) : List RrSetPayload :=
  acts.filterMap (isUpdateFor z n)

/-- The steps of a trace belonging to one target. -/
def actsFor (acts : List Act) (z n : String) : List Act :=
  acts.filterMap (isActFor z n)

/-- Number of times a (zone, recordName) pair is configured. -/
def countTarget (ts : List (String × String)) (z n : String) : Nat :=
  (ts.filter (fun p => p.1 == z && p.2 == n)).length

/-! ## Shape lemmas for the client operations -/

/-- A 404 read yields the absent marker. -/
lemma getCurrentRecord_404 (unmarshal : String → Option RrSetResponse)
    (apiKey z n t : String) (resp : HttpResponse) (h : resp.status = 404) :
    getCurrentRecord unmarshal apiKey z n t resp = .ok "" := by
  simp [getCurrentRecord, doAuthenticated, h]

/-- A 200 read whose body unmarshals with at least one record yields
the value of the first record. -/
lemma getCurrentRecord_200_cons (unmarshal : String → Option RrSetResponse)
    (apiKey z n t : String) (resp : HttpResponse) (r : RrSetResponse)
    (rec : RrSetRecord) (rest : List RrSetRecord)
    (h : resp.status = 200) (hu : unmarshal resp.body = some r)
    (hr : r.rrset.records = rec :: rest) :
    getCurrentRecord unmarshal apiKey z n t resp = .ok rec.value := by
  simp [getCurrentRecord, doAuthenticated, h, hu, hr]

/-- A 200 read whose body unmarshals with an empty record list yields
the absent marker. -/
lemma getCurrentRecord_200_nil (unmarshal : String → Option RrSetResponse)
    (apiKey z n t : String) (resp : HttpResponse) (r : RrSetResponse)
    (h : resp.status = 200) (hu : unmarshal resp.body = some r)
    (hr : r.rrset.records = []) :
    getCurrentRecord unmarshal apiKey z n t resp = .ok "" := by
  simp [getCurrentRecord, doAuthenticated, h, hu, hr]

/-- Any other status fails with the diagnostic carrying the status and
the body. -/
lemma getCurrentRecord_other (unmarshal : String → Option RrSetResponse)
    (apiKey z n t : String) (resp : HttpResponse)
    (h200 : resp.status ≠ 200) (h404 : resp.status ≠ 404) :
    getCurrentRecord unmarshal apiKey z n t resp =
      .error ("could not check record existence " ++ apiErrorMsg resp.status resp.body) := by
  simp [getCurrentRecord, doAuthenticated, h200, h404]

/-! ## Shape lemmas for one reconciliation target -/

/-- An absent remote record leads to the create call, whose outcome
decides the outcome of the target. -/
lemma processTarget_absent (config : DynDnsConfig) (t : String) (p : List Nat)
    (ip : String) (env : ProviderEnv) (z n : String)
    (h : getCurrentRecord env.unmarshal config.hetznerApiKey z n t (env.readResp z n) = .ok "") :
    processTarget config t p ip env z n =
      ([.read z n t, .create z n t (createPayload config n t ip)],
       (createRecord config z n t ip (env.createResp z n)).2) := by
  simp [processTarget, h]

/-- A present remote value equal as a parsed address leads to the skip
outcome. -/
lemma processTarget_skip (config : DynDnsConfig) (t : String) (p : List Nat)
    (ip : String) (env : ProviderEnv) (z n v : String)
    (h : getCurrentRecord env.unmarshal config.hetznerApiKey z n t (env.readResp z n) = .ok v)
    (hv : v ≠ "") (heq : goIPEqual p (parseIP v) = true) :
    processTarget config t p ip env z n = ([.read z n t, .skip z n t], none) := by
  have hv' : (v == "") = false := by simpa using hv
  simp [processTarget, h, hv', heq]

/-- A present remote value unequal as a parsed address leads to the
update call. -/
lemma processTarget_update (config : DynDnsConfig) (t : String) (p : List Nat)
    (ip : String) (env : ProviderEnv) (z n v : String)
    (h : getCurrentRecord env.unmarshal config.hetznerApiKey z n t (env.readResp z n) = .ok v)
    (hv : v ≠ "") (heq : goIPEqual p (parseIP v) = false) :
    processTarget config t p ip env z n =
      ([.read z n t, .update z n t (updatePayload ip)],
       (updateRecord config z n t ip (env.updateResp z n)).2) := by
  have hv' : (v == "") = false := by simpa using hv
  simp [processTarget, h, hv', heq]

/-- Every step a target performs is keyed to that target. -/
lemma processTarget_key (config : DynDnsConfig) (t : String) (p : List Nat)
    (ip : String) (env : ProviderEnv) (z n : String) :
    ∀ a ∈ (processTarget config t p ip env z n).1, keyOf a = some (z, n) := by
  intro a ha
  unfold processTarget at ha
  rcases hg : getCurrentRecord env.unmarshal config.hetznerApiKey z n t (env.readResp z n) with e | v
  · rw [hg] at ha
    simp at ha
    subst ha
    rfl
  · rw [hg] at ha
    by_cases hv : (v == "") = true
    · simp [hv] at ha
      rcases ha with ha | ha <;> (subst ha; rfl)
    · rw [Bool.not_eq_true] at hv
      by_cases he : goIPEqual p (parseIP v) = true
      · simp [hv, he] at ha
        rcases ha with ha | ha <;> (subst ha; rfl)
      · rw [Bool.not_eq_true] at he
        simp [hv, he] at ha
        rcases ha with ha | ha <;> (subst ha; rfl)

/-! ## Counting calls across the target loop -/

/-- A step keyed to one target is invisible to the selectors of any
other target. -/
lemma selectors_none_of_key {z n z' n' : String} (hne : ¬(z' = z ∧ n' = n)) (a : Act)
    (hk : keyOf a = some (z', n')) :
    isCreateFor z n a = none ∧ isUpdateFor z n a = none ∧ isActFor z n a = none := by
  cases a with
  | resolve u => simp [keyOf] at hk
  | read az an at' =>
    simp [keyOf] at hk
    obtain ⟨h1, h2⟩ := hk
    subst h1; subst h2
    refine ⟨rfl, rfl, ?_⟩
    simp [isActFor, keyOf]
    intro h1 h2
    exact absurd ⟨h1, h2⟩ hne
  | create az an at' pl =>
    simp [keyOf] at hk
    obtain ⟨h1, h2⟩ := hk
    subst h1; subst h2
    refine ⟨?_, rfl, ?_⟩
    · simp [isCreateFor, hne]
    · simp [isActFor, keyOf]
      intro h1 h2
      exact absurd ⟨h1, h2⟩ hne
  | update az an at' pl =>
    simp [keyOf] at hk
    obtain ⟨h1, h2⟩ := hk
    subst h1; subst h2
    refine ⟨rfl, ?_, ?_⟩
    · simp [isUpdateFor, hne]
    · simp [isActFor, keyOf]
      intro h1 h2
      exact absurd ⟨h1, h2⟩ hne
  | skip az an at' =>
    simp [keyOf] at hk
    obtain ⟨h1, h2⟩ := hk
    subst h1; subst h2
    refine ⟨rfl, rfl, ?_⟩
    simp [isActFor, keyOf]
    intro h1 h2
    exact absurd ⟨h1, h2⟩ hne

/-- The trace of a target other than (z, n) contributes nothing to the
selectors of (z, n). -/
lemma processTarget_other_nil (config : DynDnsConfig) (t : String) (p : List Nat)
    (ip : String) (env : ProviderEnv) (z n z' n' : String) (hne : ¬(z' = z ∧ n' = n)) :
    (processTarget config t p ip env z' n').1.filterMap (isCreateFor z n) = [] ∧
    (processTarget config t p ip env z' n').1.filterMap (isUpdateFor z n) = [] ∧
    (processTarget config t p ip env z' n').1.filterMap (isActFor z n) = [] := by
  refine ⟨?_, ?_, ?_⟩ <;>
    (rw [List.filterMap_eq_nil_iff]
     intro a ha
     have hk := processTarget_key config t p ip env z' n' a ha
     have := selectors_none_of_key hne a hk
     tauto)

/-- A run over targets that all succeed contributes nothing to a
selector when every single target contributes nothing. -/
lemma runTargets_filterMap_nil {β : Type} (sel : Act → Option β)
    (f : String → String → List Act × Option String) (ts : List (String × String))
    (hsucc : ∀ zn ∈ ts, (f zn.1 zn.2).2 = none)
    (hnone : ∀ zn ∈ ts, (f zn.1 zn.2).1.filterMap sel = []) :
    (runTargets f ts).1.filterMap sel = [] := by
  induction ts with
  | nil => simp [runTargets]
  | cons hd tl ih =>
    obtain ⟨z', n'⟩ := hd
    have h1 := hsucc (z', n') (by simp)
    have h2 := hnone (z', n') (by simp)
    rcases hf : f z' n' with ⟨acts, err⟩
    rw [hf] at h1 h2
    simp only at h1
    subst h1
    simp only [runTargets, hf, List.filterMap_append]
    rw [h2]
    simp only [List.nil_append]
    exact ih (fun zn hzn => hsucc zn (by simp [hzn])) (fun zn hzn => hnone zn (by simp [hzn]))

/-- If no occurrence of (z, n) is configured, every configured target
differs from it. -/
lemma countTarget_zero {ts : List (String × String)} {z n : String}
    (h : countTarget ts z n = 0) :
    ∀ zn ∈ ts, ¬(zn.1 = z ∧ zn.2 = n) := by
  intro zn hzn hcontra
  obtain ⟨h1, h2⟩ := hcontra
  have : zn ∈ ts.filter (fun p => p.1 == z && p.2 == n) := by
    rw [List.mem_filter]
    exact ⟨hzn, by simp [h1, h2]⟩
  rw [countTarget, List.length_eq_zero] at h
  rw [h] at this
  simp at this

/-- Across a run whose targets all succeed, a selector keyed to a
target configured exactly once collects exactly the contribution of
that target. -/
lemma runTargets_filterMap_single {β : Type} (sel : Act → Option β)
    (f : String → String → List Act × Option String) (ts : List (String × String))
    (z n : String) (ys : List β)
    (hsucc : ∀ zn ∈ ts, (f zn.1 zn.2).2 = none)
    (hcount : countTarget ts z n = 1)
    (hother : ∀ zn ∈ ts, ¬(zn.1 = z ∧ zn.2 = n) → (f zn.1 zn.2).1.filterMap sel = [])
    (hthis : (f z n).1.filterMap sel = ys) :
    (runTargets f ts).1.filterMap sel = ys := by
  induction ts with
  | nil => simp [countTarget] at hcount
  | cons hd tl ih =>
    obtain ⟨z', n'⟩ := hd
    have h1 := hsucc (z', n') (by simp)
    rcases hf : f z' n' with ⟨acts, err⟩
    rw [hf] at h1
    simp only at h1
    subst h1
    by_cases hk : (z' = z ∧ n' = n)
    · obtain ⟨hz, hn⟩ := hk
      subst hz; subst hn
      have hstep : countTarget ((z', n') :: tl) z' n' = countTarget tl z' n' + 1 := by
        simp [countTarget, List.filter_cons]
      have hc0 : countTarget tl z' n' = 0 := by omega
      simp only [runTargets, hf, List.filterMap_append]
      rw [hf] at hthis
      simp only at hthis
      rw [hthis]
      have hrest : (runTargets f tl).1.filterMap sel = [] := by
        apply runTargets_filterMap_nil sel f tl
          (fun zn hzn => hsucc zn (by simp [hzn]))
        intro zn hzn
        exact hother zn (by simp [hzn]) (countTarget_zero hc0 zn hzn)
      rw [hrest]
      simp
    · have h2 := hother (z', n') (by simp) hk
      rw [hf] at h2
      simp only at h2
      have hne : ((z' == z) && (n' == n)) = false := by
        by_cases h1 : z' = z
        · subst h1
          have h2n : n' ≠ n := fun h => hk ⟨rfl, h⟩
          simp [h2n]
        · simp [h1]
      have hstep : countTarget ((z', n') :: tl) z n = countTarget tl z n := by
        simp [countTarget, List.filter_cons, hne]
      have hc1 : countTarget tl z n = 1 := by omega
      simp only [runTargets, hf, List.filterMap_append]
      rw [h2]
      simp only [List.nil_append]
      exact ih (fun zn hzn => hsucc zn (by simp [hzn])) hc1
        (fun zn hzn => hother zn (by simp [hzn]))

/-- An enabled run whose resolved IP parses and matches the record
type family reduces to the resolver step followed by the target loop. -/
lemma processRecord_run (config : DynDnsConfig) (t : String) (rc : RecordConfig)
    (st : Nat) (ip : String) (p : List Nat) (env : ProviderEnv)
    (hen : rc.enabled = true) (hp : parseIP ip = some p)
    (hfam : ((t == "A") == (ipTo4 p).isNone) = false) :
    processRecord config t rc (.body st ip) env =
      (.resolve rc.source ::
         (runTargets (processTarget config t p ip env) (flatTargets config.zones)).1,
       (runTargets (processTarget config t p ip env) (flatTargets config.zones)).2) := by
  simp [processRecord, getPublicIP, hen, hp, hfam]

/-- The resolver step contributes no create call. -/
lemma createsFor_resolve_cons (s : String) (l : List Act) (z n : String) :
    createsFor (.resolve s :: l) z n = createsFor l z n := by
  simp [createsFor, isCreateFor]

/-- The resolver step contributes no update call. -/
lemma updatesFor_resolve_cons (s : String) (l : List Act) (z n : String) :
    updatesFor (.resolve s :: l) z n = updatesFor l z n := by
  simp [updatesFor, isUpdateFor]

/-- The resolver step belongs to no target. -/
lemma actsFor_resolve_cons (s : String) (l : List Act) (z n : String) :
    actsFor (.resolve s :: l) z n = actsFor l z n := by
  simp [actsFor, isActFor, keyOf]

/-! ## Claim theorems -/

/-- C1: for every enabled record type and every configured (zone,
recordName) target, after a successfully resolved and validated
candidate IP: if the remote record is absent (the read returns 404),
exactly one createRecord call is issued for that target, carrying the
configured TTL and the candidate as its single value, and zero
updateRecord calls; if the remote record is present with a (nonempty)
value whose parsed address differs from the candidate, exactly one
updateRecord call with the candidate is issued and zero createRecord
calls. The run is assumed to reach every target (no target fails). -/
theorem c1_create_update_exactly_once (config : DynDnsConfig) (t : String)
    (rc : RecordConfig) (st : Nat) (ip : String) (p : List Nat) (env : ProviderEnv)
    (z n : String)
    (hen : rc.enabled = true)
    (hp : parseIP ip = some p)
    (hfam : ((t == "A") == (ipTo4 p).isNone) = false)
    (hcount : countTarget (flatTargets config.zones) z n = 1)
    (hsucc : ∀ zn ∈ flatTargets config.zones,
      (processTarget config t p ip env zn.1 zn.2).2 = none) :
    ((env.readResp z n).status = 404 →
      createsFor (processRecord config t rc (.body st ip) env).1 z n =
        [createPayload config n t ip] ∧
      updatesFor (processRecord config t rc (.body st ip) env).1 z n = [] ∧
      (createPayload config n t ip).ttl = config.recordTTL ∧
      (createPayload config n t ip).records = [{ value := ip }]) ∧
    (∀ (r : RrSetResponse) (rec : RrSetRecord) (rest : List RrSetRecord),
      (env.readResp z n).status = 200 →
      env.unmarshal (env.readResp z n).body = some r →
      r.rrset.records = rec :: rest →
      rec.value ≠ "" →
      goIPEqual p (parseIP rec.value) = false →
      updatesFor (processRecord config t rc (.body st ip) env).1 z n =
        [updatePayload ip] ∧
      createsFor (processRecord config t rc (.body st ip) env).1 z n = [] ∧
      (updatePayload ip).records = [{ value := ip }]) := by
  have hrun := processRecord_run config t rc st ip p env hen hp hfam
  constructor
  · intro h404
    have hshape := processTarget_absent config t p ip env z n
      (getCurrentRecord_404 env.unmarshal config.hetznerApiKey z n t (env.readResp z n) h404)
    refine ⟨?_, ?_, rfl, rfl⟩
    · rw [hrun]
      simp only [createsFor_resolve_cons]
      apply runTargets_filterMap_single (isCreateFor z n) _ _ z n _ hsucc hcount
      · intro zn hzn hne
        exact (processTarget_other_nil config t p ip env z n zn.1 zn.2 hne).1
      · rw [hshape]
        simp [isCreateFor]
    · rw [hrun]
      simp only [updatesFor_resolve_cons]
      apply runTargets_filterMap_single (isUpdateFor z n) _ _ z n _ hsucc hcount
      · intro zn hzn hne
        exact (processTarget_other_nil config t p ip env z n zn.1 zn.2 hne).2.1
      · rw [hshape]
        simp [isUpdateFor]
  · intro r rec rest h200 hu hr hv hneq
    have hshape := processTarget_update config t p ip env z n rec.value
      (getCurrentRecord_200_cons env.unmarshal config.hetznerApiKey z n t
        (env.readResp z n) r rec rest h200 hu hr) hv hneq
    refine ⟨?_, ?_, rfl⟩
    · rw [hrun]
      simp only [updatesFor_resolve_cons]
      apply runTargets_filterMap_single (isUpdateFor z n) _ _ z n _ hsucc hcount
      · intro zn hzn hne
        exact (processTarget_other_nil config t p ip env z n zn.1 zn.2 hne).2.1
      · rw [hshape]
        simp [isUpdateFor]
    · rw [hrun]
      simp only [createsFor_resolve_cons]
      apply runTargets_filterMap_single (isCreateFor z n) _ _ z n _ hsucc hcount
      · intro zn hzn hne
        exact (processTarget_other_nil config t p ip env z n zn.1 zn.2 hne).1
      · rw [hshape]
        simp [isCreateFor]

/-- A concrete single-target configuration used by the witnesses. -/
def cfgW : DynDnsConfig :=
  { hetznerApiKey := "key"
    recordTTL := 300
    zones := [("example.com", ["www"])]
    a := { enabled := true, source := "https://ipv4.example" }
    aaaa := { enabled := false, source := "https://ipv6.example" } }

/-- The 16-byte form of 203.0.113.5 as net.ParseIP returns it. -/
def ipW : List Nat := [0, 0, 0, 0, 0, 0, 0, 0, 0, 0, 255, 255, 203, 0, 113, 5]

/-- Provider environment answering 404 to the read and 201 to the
mutations. -/
def envAbsentW : ProviderEnv :=
  { unmarshal := fun _ => none
    readResp := fun _ _ => { status := 404, body := "" }
    createResp := fun _ _ => { status := 201, body := "" }
    updateResp := fun _ _ => { status := 201, body := "" } }

/-- The unmarshalled record-set of the present-record environments. -/
def rrW : RrSetResponse :=
  { rrset := { name := "www", type := "A", ttl := 300, records := [{ value := "203.0.113.9" }] } }

/-- Provider environment answering 200 with a stale value. -/
def envStaleW : ProviderEnv :=
  { unmarshal := fun _ => some rrW
    readResp := fun _ _ => { status := 200, body := "rrset-body" }
    createResp := fun _ _ => { status := 201, body := "" }
    updateResp := fun _ _ => { status := 201, body := "" } }

/-- Witness for C1: both decision branches at concrete inputs. -/
theorem c1_create_update_exactly_once_witness :
    (createsFor (processRecord cfgW "A" cfgW.a (.body 200 "203.0.113.5") envAbsentW).1
        "example.com" "www" = [createPayload cfgW "www" "A" "203.0.113.5"] ∧
     updatesFor (processRecord cfgW "A" cfgW.a (.body 200 "203.0.113.5") envAbsentW).1
        "example.com" "www" = [] ∧
     (createPayload cfgW "www" "A" "203.0.113.5").ttl = cfgW.recordTTL ∧
     (createPayload cfgW "www" "A" "203.0.113.5").records = [{ value := "203.0.113.5" }]) ∧
    (updatesFor (processRecord cfgW "A" cfgW.a (.body 200 "203.0.113.5") envStaleW).1
        "example.com" "www" = [updatePayload "203.0.113.5"] ∧
     createsFor (processRecord cfgW "A" cfgW.a (.body 200 "203.0.113.5") envStaleW).1
        "example.com" "www" = [] ∧
     (updatePayload "203.0.113.5").records = [{ value := "203.0.113.5" }]) := by
  constructor
  · exact (c1_create_update_exactly_once cfgW "A" cfgW.a 200 "203.0.113.5" ipW envAbsentW
      "example.com" "www" rfl (by decide) (by decide) (by decide) (by decide)).1 rfl
  · exact (c1_create_update_exactly_once cfgW "A" cfgW.a 200 "203.0.113.5" ipW envStaleW
      "example.com" "www" rfl (by decide) (by decide) (by decide) (by decide)).2
      rrW { value := "203.0.113.9" } [] rfl rfl rfl (by decide) (by decide)

/-- C2: when the remote record holds a value that parses to the same
address as the candidate (equality of the parsed 16-byte forms, the
comparison net.ParseIP induces), the reconciler performs no provider
mutation for that target and reports it as already up to date: the
only steps for the target are the read and the skip report. Textual
difference between the two strings is immaterial; the comparison never
consults the raw strings. -/
theorem c2_parsed_equality_skips_update (config : DynDnsConfig) (t : String)
    (rc : RecordConfig) (st : Nat) (v2 : String) (p : List Nat) (env : ProviderEnv)
    (z n : String) (r : RrSetResponse) (rec : RrSetRecord) (rest : List RrSetRecord)
    (hen : rc.enabled = true)
    (hp : parseIP v2 = some p)
    (hfam : ((t == "A") == (ipTo4 p).isNone) = false)
    (hcount : countTarget (flatTargets config.zones) z n = 1)
    (hsucc : ∀ zn ∈ flatTargets config.zones,
      (processTarget config t p v2 env zn.1 zn.2).2 = none)
    (h200 : (env.readResp z n).status = 200)
    (hu : env.unmarshal (env.readResp z n).body = some r)
    (hr : r.rrset.records = rec :: rest)
    (hq : parseIP rec.value = some p) :
    actsFor (processRecord config t rc (.body st v2) env).1 z n =
      [.read z n t, .skip z n t] ∧
    createsFor (processRecord config t rc (.body st v2) env).1 z n = [] ∧
    updatesFor (processRecord config t rc (.body st v2) env).1 z n = [] := by
  have hrun := processRecord_run config t rc st v2 p env hen hp hfam
  have hv : rec.value ≠ "" := by
    intro h
    rw [h] at hq
    have : parseIP "" = none := by decide
    rw [this] at hq
    exact Option.noConfusion hq
  have heq : goIPEqual p (parseIP rec.value) = true := by
    rw [hq]
    simp [goIPEqual, goIPEqualFull]
  have hshape := processTarget_skip config t p v2 env z n rec.value
    (getCurrentRecord_200_cons env.unmarshal config.hetznerApiKey z n t
      (env.readResp z n) r rec rest h200 hu hr) hv heq
  refine ⟨?_, ?_, ?_⟩
  · rw [hrun]
    simp only [actsFor_resolve_cons]
    apply runTargets_filterMap_single (isActFor z n) _ _ z n _ hsucc hcount
    · intro zn hzn hne
      exact (processTarget_other_nil config t p v2 env z n zn.1 zn.2 hne).2.2
    · rw [hshape]
      simp [isActFor, keyOf]
  · rw [hrun]
    simp only [createsFor_resolve_cons]
    apply runTargets_filterMap_single (isCreateFor z n) _ _ z n _ hsucc hcount
    · intro zn hzn hne
      exact (processTarget_other_nil config t p v2 env z n zn.1 zn.2 hne).1
    · rw [hshape]
      simp [isCreateFor]
  · rw [hrun]
    simp only [updatesFor_resolve_cons]
    apply runTargets_filterMap_single (isUpdateFor z n) _ _ z n _ hsucc hcount
    · intro zn hzn hne
      exact (processTarget_other_nil config t p v2 env z n zn.1 zn.2 hne).2.1
    · rw [hshape]
      simp [isUpdateFor]

/-- The 16-byte form of 2001:db8::1. -/
def ip6W : List Nat := [32, 1, 13, 184, 0, 0, 0, 0, 0, 0, 0, 0, 0, 0, 0, 1]

/-- A record-set holding the fully expanded spelling of 2001:db8::1. -/
def rr6W : RrSetResponse :=
  { rrset := { name := "www", type := "AAAA", ttl := 300,
               records := [{ value := "2001:0db8:0000:0000:0000:0000:0000:0001" }] } }

/-- Provider environment answering 200 with the expanded IPv6 text. -/
def env6W : ProviderEnv :=
  { unmarshal := fun _ => some rr6W
    readResp := fun _ _ => { status := 200, body := "rrset6-body" }
    createResp := fun _ _ => { status := 201, body := "" }
    updateResp := fun _ _ => { status := 201, body := "" } }

/-- Witness for C2: remote value 2001:0db8:0000:0000:0000:0000:0000:0001
and candidate 2001:db8::1 differ textually but parse equal, and the run
performs no mutation for the target. -/
theorem c2_parsed_equality_skips_update_witness :
    actsFor (processRecord cfgW "AAAA" { enabled := true, source := "https://ipv6.example" }
        (.body 200 "2001:db8::1") env6W).1 "example.com" "www" =
      [.read "example.com" "www" "AAAA", .skip "example.com" "www" "AAAA"] ∧
    createsFor (processRecord cfgW "AAAA" { enabled := true, source := "https://ipv6.example" }
        (.body 200 "2001:db8::1") env6W).1 "example.com" "www" = [] ∧
    updatesFor (processRecord cfgW "AAAA" { enabled := true, source := "https://ipv6.example" }
        (.body 200 "2001:db8::1") env6W).1 "example.com" "www" = [] :=
  c2_parsed_equality_skips_update cfgW "AAAA" { enabled := true, source := "https://ipv6.example" }
    200 "2001:db8::1" ip6W env6W "example.com" "www" rr6W
    { value := "2001:0db8:0000:0000:0000:0000:0000:0001" } []
    rfl (by decide) (by decide) (by decide) (by decide) rfl rfl rfl (by decide)

/-- C3: when the resolver body does not parse as an IP address, or
parses to an address whose family disagrees with the record type (A
demands an IPv4 form, AAAA demands none), the run aborts with the
validation message and the trace holds only the resolver step: no
provider call of any kind is issued for that record type. -/
theorem c3_validation_error_before_provider (config : DynDnsConfig) (t : String)
    (rc : RecordConfig) (st : Nat) (s : String) (env : ProviderEnv)
    (hen : rc.enabled = true)
    (hbad : parseIP s = none ∨
      ∃ p, parseIP s = some p ∧ ((t == "A") == (ipTo4 p).isNone) = true) :
    processRecord config t rc (.body st s) env =
      ([.resolve rc.source], some (invalidIpMsg s)) := by
  rcases hbad with h | ⟨p, hp, hfam⟩
  · simp [processRecord, getPublicIP, hen, h]
  · simp [processRecord, getPublicIP, hen, hp, hfam]

/-- Witness for C3: a non-IP body, and an IPv6-only literal offered for
an A record, both abort before any provider call. -/
theorem c3_validation_error_before_provider_witness :
    processRecord cfgW "A" cfgW.a (.body 200 "not-an-ip") envAbsentW =
      ([.resolve cfgW.a.source], some (invalidIpMsg "not-an-ip")) ∧
    processRecord cfgW "A" cfgW.a (.body 200 "2001:db8::1") envAbsentW =
      ([.resolve cfgW.a.source], some (invalidIpMsg "2001:db8::1")) :=
  ⟨c3_validation_error_before_provider cfgW "A" cfgW.a 200 "not-an-ip" envAbsentW rfl
     (Or.inl (by decide)),
   c3_validation_error_before_provider cfgW "A" cfgW.a 200 "2001:db8::1" envAbsentW rfl
     (Or.inr ⟨ip6W, by decide, by decide⟩)⟩

/-- C4: getCurrentRecord returns the absent marker on a 404; on a 200
whose body unmarshals to a record-set with at least one record it
returns exactly the first value, ignoring the rest; on any other
status it fails with the diagnostic carrying the status code and the
response body. -/
theorem c4_getCurrentRecord_cases (unmarshal : String → Option RrSetResponse)
    (apiKey z n t : String) :
    (∀ resp : HttpResponse, resp.status = 404 →
      getCurrentRecord unmarshal apiKey z n t resp = .ok "") ∧
    (∀ (resp : HttpResponse) (r : RrSetResponse) (rec : RrSetRecord) (rest : List RrSetRecord),
      resp.status = 200 → unmarshal resp.body = some r → r.rrset.records = rec :: rest →
      getCurrentRecord unmarshal apiKey z n t resp = .ok rec.value) ∧
    (∀ resp : HttpResponse, resp.status ≠ 200 → resp.status ≠ 404 →
      getCurrentRecord unmarshal apiKey z n t resp =
        .error ("could not check record existence " ++ apiErrorMsg resp.status resp.body)) :=
  ⟨fun resp h => getCurrentRecord_404 unmarshal apiKey z n t resp h,
   fun resp r rec rest h hu hr =>
     getCurrentRecord_200_cons unmarshal apiKey z n t resp r rec rest h hu hr,
   fun resp h200 h404 => getCurrentRecord_other unmarshal apiKey z n t resp h200 h404⟩

/-- A record-set carrying two values, to exercise the first-value-only
behaviour of the read. -/
def rrTwoW : RrSetResponse :=
  { rrset := { name := "www"
               type := "A"
               ttl := 300
               records := [{ value := "203.0.113.9" }, { value := "203.0.113.7" }] } }

/-- Witness for C4: the three response shapes at concrete inputs; the
200 body carries two records and only the first value is returned. -/
theorem c4_getCurrentRecord_cases_witness :
    getCurrentRecord envAbsentW.unmarshal "key" "example.com" "www" "A"
      { status := 404, body := "" } = .ok "" ∧
    getCurrentRecord (fun _ => some rrTwoW)
      "key" "example.com" "www" "A" { status := 200, body := "two-records" } =
      .ok "203.0.113.9" ∧
    getCurrentRecord envAbsentW.unmarshal "key" "example.com" "www" "A"
      { status := 500, body := "server error" } =
      .error ("could not check record existence " ++ apiErrorMsg 500 "server error") :=
  ⟨(c4_getCurrentRecord_cases envAbsentW.unmarshal "key" "example.com" "www" "A").1
     { status := 404, body := "" } rfl,
   (c4_getCurrentRecord_cases (fun _ => some rrTwoW)
      "key" "example.com" "www" "A").2.1
     { status := 200, body := "two-records" } rrTwoW { value := "203.0.113.9" }
     [{ value := "203.0.113.7" }] rfl rfl rfl,
   (c4_getCurrentRecord_cases envAbsentW.unmarshal "key" "example.com" "www" "A").2.2
     { status := 500, body := "server error" } (by decide) (by decide)⟩

/-- C5: every createRecord call is a POST to the record-set creation
endpoint of the zone whose payload names the record, its type, the
configured TTL and a single-element records list holding the candidate
value; the call succeeds exactly on status 201 and otherwise fails
with the diagnostic carrying status and body. -/
theorem c5_createRecord_contract (config : DynDnsConfig) (z n t ip : String)
    (resp : HttpResponse) :
    (createRecord config z n t ip resp).1.method = "POST" ∧
    (createRecord config z n t ip resp).1.url =
      "https://api.hetzner.cloud/v1/zones/" ++ z ++ "/rrsets" ∧
    (createRecord config z n t ip resp).1.body =
      some (encodeRrSetPayload (createPayload config n t ip)) ∧
    (createPayload config n t ip).name = n ∧
    (createPayload config n t ip).type = t ∧
    (createPayload config n t ip).ttl = config.recordTTL ∧
    (createPayload config n t ip).records = [{ value := ip }] ∧
    (createRecord config z n t ip resp).2 =
      (if resp.status = 201 then none
       else some ("could not create record " ++ n ++ "." ++ z ++ " of type " ++ t
         ++ " with " ++ ip ++ " " ++ apiErrorMsg resp.status resp.body)) := by
  by_cases h : resp.status = 201 <;>
    refine ⟨?_, ?_, ?_, rfl, rfl, rfl, rfl, ?_⟩ <;>
    simp [createRecord, doAuthenticated, h]

/-- C6: every updateRecord call is a POST to the set_records action
sub-resource of the record, and its serialized payload holds only the
records key with the single candidate value: the name, type and ttl
keys are omitted (their Go zero values fall to omitempty); the call
succeeds exactly on status 201 and otherwise fails with the diagnostic
carrying status and body. -/
theorem c6_updateRecord_contract (config : DynDnsConfig) (z n t ip : String)
    (resp : HttpResponse) :
    (updateRecord config z n t ip resp).1.method = "POST" ∧
    (updateRecord config z n t ip resp).1.url =
      "https://api.hetzner.cloud/v1/zones/" ++ z ++ "/rrsets/" ++ n ++ "/" ++ t
        ++ "/actions/set_records" ∧
    (updateRecord config z n t ip resp).1.body =
      some (.fields [("records", .list [.fields [("value", .text ip)]])]) ∧
    (updateRecord config z n t ip resp).2 =
      (if resp.status = 201 then none
       else some ("could not update record " ++ n ++ "." ++ z ++ " of type " ++ t
         ++ " with " ++ ip ++ " " ++ apiErrorMsg resp.status resp.body)) := by
  by_cases h : resp.status = 201 <;>
    refine ⟨?_, ?_, ?_, ?_⟩ <;>
    simp [updateRecord, doAuthenticated, updatePayload, encodeRrSetPayload,
      encodeRrSetRecord, h]

/-- C7: getPublicIP performs exactly one GET against the configured
source URL and returns the entire response body without consulting the
status code; it fails only on connection failure or body-read failure,
never because of the status. -/
theorem c7_getPublicIP_contract (source : String) :
    (∀ fetch : FetchResult, (getPublicIP source fetch).1 = [source]) ∧
    (∀ (st : Nat) (b : String), (getPublicIP source (.body st b)).2 = .ok b) ∧
    (∀ m : String, (getPublicIP source (.connError m)).2 =
      .error ("could not fetch ip from " ++ source ++ " " ++ m)) ∧
    (∀ m : String, (getPublicIP source (.readError m)).2 =
      .error ("could not read response " ++ m)) :=
  ⟨fun _ => rfl, fun _ _ => rfl, fun _ => rfl, fun _ => rfl⟩

/-- C8: a disabled record type produces no network activity at all: no
resolver fetch and no provider call, for any configuration, transport
outcome and environment. -/
theorem c8_disabled_is_untouched (config : DynDnsConfig) (t src : String)
    (fetch : FetchResult) (env : ProviderEnv) :
    processRecord config t { enabled := false, source := src } fetch env = ([], none) :=
  rfl

/-- C9: the outcome of doAuthenticated is independent of the
credential, which flows only into the Authorization header of the
request; on an unexpected status the error carries exactly the status
code and response body. Two runs differing only in the apiKey argument
and receiving the same response return the same result. -/
theorem c9_doAuthenticated_key_independent (method u : String)
    (payload : Option RrSetPayload) (expected : List Nat) (readBody : Bool)
    (resp : HttpResponse) (k1 k2 : String) :
    (doAuthenticated method k1 u payload expected readBody resp).2 =
      (doAuthenticated method k2 u payload expected readBody resp).2 ∧
    (doAuthenticated method k1 u payload expected readBody resp).1.authorization =
      "Bearer " ++ k1 ∧
    (expected.contains resp.status = false →
      (doAuthenticated method k1 u payload expected readBody resp).2 =
        .err (apiErrorMsg resp.status resp.body)) := by
  refine ⟨?_, ?_, ?_⟩
  · by_cases hc : resp.status ∈ expected <;> by_cases hb : readBody <;>
      simp [doAuthenticated, hc, hb]
  · by_cases hc : resp.status ∈ expected <;> by_cases hb : readBody <;>
      simp [doAuthenticated, hc, hb]
  · intro h
    have hnot : resp.status ∉ expected := by simpa using h
    simp [doAuthenticated, hnot]

/-- Witness for C9: two distinct credentials, same 500 response, same
returned error value, which names the status and the body. -/
theorem c9_doAuthenticated_key_independent_witness :
    (doAuthenticated "GET" "credential-one" "https://api.hetzner.cloud/v1/zones/x/rrsets/y/A"
        none [200, 404] true { status := 500, body := "backend oops" }).2 =
      (doAuthenticated "GET" "credential-two" "https://api.hetzner.cloud/v1/zones/x/rrsets/y/A"
        none [200, 404] true { status := 500, body := "backend oops" }).2 ∧
    (doAuthenticated "GET" "credential-one" "https://api.hetzner.cloud/v1/zones/x/rrsets/y/A"
        none [200, 404] true { status := 500, body := "backend oops" }).1.authorization =
      "Bearer " ++ "credential-one" ∧
    (doAuthenticated "GET" "credential-one" "https://api.hetzner.cloud/v1/zones/x/rrsets/y/A"
        none [200, 404] true { status := 500, body := "backend oops" }).2 =
      .err (apiErrorMsg 500 "backend oops") := by
  have h := c9_doAuthenticated_key_independent "GET"
    "https://api.hetzner.cloud/v1/zones/x/rrsets/y/A" none [200, 404] true
    { status := 500, body := "backend oops" } "credential-one" "credential-two"
  exact ⟨h.1, h.2.1, h.2.2 (by decide)⟩

/-- C10: a 200 read whose record-set holds an empty records list is
treated exactly like an absent record: getCurrentRecord returns the
absent marker and the run issues one createRecord call and no
updateRecord call for that target. -/
theorem c10_empty_records_create (config : DynDnsConfig) (t : String)
    (rc : RecordConfig) (st : Nat) (ip : String) (p : List Nat) (env : ProviderEnv)
    (z n : String) (r : RrSetResponse)
    (hen : rc.enabled = true)
    (hp : parseIP ip = some p)
    (hfam : ((t == "A") == (ipTo4 p).isNone) = false)
    (hcount : countTarget (flatTargets config.zones) z n = 1)
    (hsucc : ∀ zn ∈ flatTargets config.zones,
      (processTarget config t p ip env zn.1 zn.2).2 = none)
    (h200 : (env.readResp z n).status = 200)
    (hu : env.unmarshal (env.readResp z n).body = some r)
    (hr : r.rrset.records = []) :
    getCurrentRecord env.unmarshal config.hetznerApiKey z n t (env.readResp z n) = .ok "" ∧
    createsFor (processRecord config t rc (.body st ip) env).1 z n =
      [createPayload config n t ip] ∧
    updatesFor (processRecord config t rc (.body st ip) env).1 z n = [] := by
  have hrun := processRecord_run config t rc st ip p env hen hp hfam
  have habs := getCurrentRecord_200_nil env.unmarshal config.hetznerApiKey z n t
    (env.readResp z n) r h200 hu hr
  have hshape := processTarget_absent config t p ip env z n habs
  refine ⟨habs, ?_, ?_⟩
  · rw [hrun]
    simp only [createsFor_resolve_cons]
    apply runTargets_filterMap_single (isCreateFor z n) _ _ z n _ hsucc hcount
    · intro zn hzn hne
      exact (processTarget_other_nil config t p ip env z n zn.1 zn.2 hne).1
    · rw [hshape]
      simp [isCreateFor]
  · rw [hrun]
    simp only [updatesFor_resolve_cons]
    apply runTargets_filterMap_single (isUpdateFor z n) _ _ z n _ hsucc hcount
    · intro zn hzn hne
      exact (processTarget_other_nil config t p ip env z n zn.1 zn.2 hne).2.1
    · rw [hshape]
      simp [isUpdateFor]

/-- A record-set with an empty records list. -/
def rrEmptyW : RrSetResponse :=
  { rrset := { name := "www", type := "A", ttl := 300, records := [] } }

/-- Provider environment answering 200 with an empty records list. -/
def envEmptyW : ProviderEnv :=
  { unmarshal := fun _ => some rrEmptyW
    readResp := fun _ _ => { status := 200, body := "empty-body" }
    createResp := fun _ _ => { status := 201, body := "" }
    updateResp := fun _ _ => { status := 201, body := "" } }

/-- Witness for C10: a 200 response with zero records leads to one
create and no update. -/
theorem c10_empty_records_create_witness :
    getCurrentRecord envEmptyW.unmarshal cfgW.hetznerApiKey "example.com" "www" "A"
      (envEmptyW.readResp "example.com" "www") = .ok "" ∧
    createsFor (processRecord cfgW "A" cfgW.a (.body 200 "203.0.113.5") envEmptyW).1
      "example.com" "www" = [createPayload cfgW "www" "A" "203.0.113.5"] ∧
    updatesFor (processRecord cfgW "A" cfgW.a (.body 200 "203.0.113.5") envEmptyW).1
      "example.com" "www" = [] :=
  c10_empty_records_create cfgW "A" cfgW.a 200 "203.0.113.5" ipW envEmptyW
    "example.com" "www" rrEmptyW rfl (by decide) (by decide) (by decide) (by decide)
    rfl rfl rfl
